import Mathlib

/-!
Verification development for the CUPS scheduler (`scheduler/main.c`) and the
libusb USB backend (`cups/backend/usb-libusb.c`).

Times (`time_t`), `long` and `ssize_t` values are modelled as `Int`; byte
values and small unsigned counters (`uint8_t`) as `Nat`, with unsigned
wrap-around made explicit where it matters.  Enumeration constants whose
headers are not part of the two translated files (IPP job states, libusb
error codes, CUPS side-channel codes, signal numbers) are fixed to their
documented public values; no result below depends on the exact numbers,
only on their being distinct.
-/

namespace Cups

/-! ## Scheduler: `select_timeout` (scheduler/main.c, lines 1441-1596) -/

/-- IPP job state constant: `IPP_JOB_PROCESSING` (public IPP value 5). -/
def IPP_JOB_PROCESSING : Int := 5

/-- Browse protocol bit `BROWSE_CUPS` (cupsd header constant, value 1). -/
def BROWSE_CUPS : Nat := 1

/-- Browse protocol bit `BROWSE_SLP` (cupsd header constant, value 2). -/
def BROWSE_SLP : Nat := 2

/-- Log level constant `L_DEBUG` (cupsd header constant, value 6). -/
def L_DEBUG : Int := 6

/-- The fields of a `client_t` read by `select_timeout`. -/
structure SClient where
  http_used : Nat
  http_activity : Int
  deriving DecidableEq

/-- The fields of a `printer_t` read by `select_timeout`:
`p->type & CUPS_PRINTER_REMOTE`, `p->type & CUPS_PRINTER_IMPLICIT`,
`p->browse_protocol`, `p->browse_time`. -/
structure SPrinter where
  remote : Bool
  implicit : Bool
  browse_protocol : Nat
  browse_time : Int
  deriving DecidableEq

/-- The global scheduler state consulted by `select_timeout`.  Each field is
one of the globals the function reads; `jobStates` holds
`job->state->values[0].integer` for each job on the `Jobs` list. -/
structure SchedState where
  clients : List SClient
  numClients : Nat
  timeoutConf : Int
  notifyPost : Bool
  browsing : Bool
  browseLocalProtocols : Nat
  browseRemoteProtocols : Nat
  browseSLPRefresh : Int
  browseTimeout : Int
  browseInterval : Int
  printers : List SPrinter
  jobStates : List Int
  logLevel : Int
  mallinfoTime : Int
  rootCertDuration : Int
  rootCertTime : Int
  now : Int
  deriving DecidableEq

/-- The client-activity pass: `timeout` is lowered to
`con->http.activity + Timeout` whenever that is strictly smaller. -/
def clientStage (st : SchedState) (t : Int) : Int :=
  st.clients.foldl
    (fun t c => if c.http_activity + st.timeoutConf < t then c.http_activity + st.timeoutConf else t)
    t

/-- The browse pass: the SLP refresh deadline and, per printer, either the
remote browse timeout or the local browse interval, exactly as guarded in the
source. -/
def browseStage (st : SchedState) (t0 : Int) : Int :=
  if st.browsing ∧ (st.browseLocalProtocols ≠ 0 ∨ st.browseRemoteProtocols ≠ 0) then
    let t1 := if st.browseRemoteProtocols &&& BROWSE_SLP ≠ 0 ∧ st.browseSLPRefresh < t0 then
                st.browseSLPRefresh
              else t0
    if (st.browseLocalProtocols ||| st.browseRemoteProtocols) &&& BROWSE_CUPS ≠ 0 then
      st.printers.foldl
        (fun t p =>
          if p.remote then
            if p.browse_protocol = BROWSE_CUPS ∧ p.browse_time + st.browseTimeout < t then
              p.browse_time + st.browseTimeout
            else t
          else if ¬ p.implicit then
            if st.browseInterval ≠ 0 ∧ p.browse_time + st.browseInterval < t then
              p.browse_time + st.browseInterval
            else t
          else t)
        t1
    else t1
  else t0

/-- The active-jobs pass: if the running deadline is later than `now + 10`
and some job is in a state at or before Processing, pull it in to `now + 10`. -/
def jobStage (st : SchedState) (t : Int) : Int :=
  if st.now + 10 < t ∧ st.jobStates.any (fun s => decide (s ≤ IPP_JOB_PROCESSING)) then
    st.now + 10
  else t

/-- The memory-statistics pass (`HAVE_MALLINFO` block). -/
def mallinfoStage (st : SchedState) (t : Int) : Int :=
  if st.logLevel ≥ L_DEBUG ∧ st.mallinfoTime + 60 < t then st.mallinfoTime + 60 else t

/-- The root-certificate rotation pass. -/
def rootCertStage (st : SchedState) (t : Int) : Int :=
  if st.rootCertDuration ≠ 0 ∧ st.rootCertTime + st.rootCertDuration < t then
    st.rootCertTime + st.rootCertDuration
  else t

/-- The absolute deadline `select_timeout` computes before converting to a
relative value: the passes above applied in source order to the default
`now + 86400`. -/
def st_deadline (st : SchedState) : Int :=
  rootCertStage st (mallinfoStage st (jobStage st (browseStage st (clientStage st (st.now + 86400)))))

/-- The final stanza of `select_timeout`: convert to relative time and clamp
into [1, 86400]. -/
def clampTimeout (timeout : Int) : Int :=
  if timeout < 1 then 1
  else if timeout > 86400 then 86400
  else timeout

/-- `select_timeout` from scheduler/main.c: 0 if any client has buffered
bytes, 1 if the previous select returned ready descriptors or more than 50
clients exist or notifications are pending, otherwise the deadline converted
to a relative delay and clamped into [1, 86400]. -/
def select_timeout (st : SchedState) (fds : Int) : Int :=
  if st.clients.any (fun c => decide (0 < c.http_used)) then 0
  else if fds ≠ 0 ∨ 50 < st.numClients then 1
  else if st.notifyPost then 1
  else clampTimeout (st_deadline st - st.now + 1)

/-- A scheduler state with one client holding buffered unread bytes. -/
def schedBusy : SchedState :=
  { clients := [{ http_used := 1, http_activity := 0 }]
    numClients := 1
    timeoutConf := 300
    notifyPost := false
    browsing := false
    browseLocalProtocols := 0
    browseRemoteProtocols := 0
    browseSLPRefresh := 0
    browseTimeout := 0
    browseInterval := 0
    printers := []
    jobStates := []
    logLevel := 0
    mallinfoTime := 0
    rootCertDuration := 0
    rootCertTime := 0
    now := 1000 }

/-- An idle scheduler state: no clients, no jobs, browsing off. -/
def schedIdle : SchedState :=
  { clients := []
    numClients := 0
    timeoutConf := 300
    notifyPost := false
    browsing := false
    browseLocalProtocols := 0
    browseRemoteProtocols := 0
    browseSLPRefresh := 0
    browseTimeout := 0
    browseInterval := 0
    printers := []
    jobStates := []
    logLevel := 0
    mallinfoTime := 0
    rootCertDuration := 0
    rootCertTime := 0
    now := 1000 }

/-- C1 counterexample: with a client that has buffered unread bytes,
`select_timeout` returns 0, so the claimed lower bound of 1 second fails. -/
theorem select_timeout_zero_cex : select_timeout schedBusy 0 < 1 := by decide

/-- C1 (amended): `select_timeout` always returns a value in [0, 86400]; it
returns at least 1 whenever no client has buffered unread bytes; and on the
full deadline-computation path (no buffered bytes, no ready descriptors, at
most 50 clients, no pending notifications) it equals
`max 1 (min 86400 (deadline - now + 1))`, hence is at most
`max 1 (deadline - now + 1)`. -/
theorem select_timeout_bounds (st : SchedState) (fds : Int) :
    0 ≤ select_timeout st fds ∧ select_timeout st fds ≤ 86400 ∧
    (st.clients.any (fun c => decide (0 < c.http_used)) = false →
      1 ≤ select_timeout st fds) ∧
    (st.clients.any (fun c => decide (0 < c.http_used)) = false →
      fds = 0 → st.numClients ≤ 50 → st.notifyPost = false →
      select_timeout st fds = max 1 (min 86400 (st_deadline st - st.now + 1)) ∧
      select_timeout st fds ≤ max 1 (st_deadline st - st.now + 1)) := by
  unfold select_timeout clampTimeout
  split_ifs with h1 h2 h3 h4 h5
  · refine ⟨by norm_num, by norm_num, fun hb => ?_, fun hb _ _ _ => ?_⟩ <;> simp [hb] at h1
  · refine ⟨by norm_num, by norm_num, fun _ => le_refl 1, fun _ hf hn _ => ?_⟩
    rcases h2 with h2 | h2
    · exact absurd hf h2
    · omega
  · refine ⟨by norm_num, by norm_num, fun _ => le_refl 1, fun _ _ _ hp => ?_⟩
    simp [hp] at h3
  · exact ⟨by omega, by omega, fun _ => by omega, fun _ _ _ _ => ⟨by omega, by omega⟩⟩
  · exact ⟨by omega, by omega, fun _ => by omega, fun _ _ _ _ => ⟨by omega, by omega⟩⟩
  · exact ⟨by omega, by omega, fun _ => by omega, fun _ _ _ _ => ⟨by omega, by omega⟩⟩

/-- C1 witness: the amended bounds evaluated on the idle scheduler state. -/
theorem select_timeout_bounds_witness :
    1 ≤ select_timeout schedIdle 0 ∧
    select_timeout schedIdle 0 = max 1 (min 86400 (st_deadline schedIdle - schedIdle.now + 1)) := by
  refine ⟨(select_timeout_bounds schedIdle 0).2.2.1 (by decide), ?_⟩
  exact ((select_timeout_bounds schedIdle 0).2.2.2 (by decide) rfl (by decide) rfl).1

/-! ## Scheduler: reload decision (scheduler/main.c, lines 541-583) -/

/-- `RELOAD_ALL` from the cupsd header (not part of the two translated
files); the header also defines other non-zero reload kinds
(e.g. `RELOAD_CUPSD`), which is why the source tests `NeedReload !=
RELOAD_ALL` explicitly. -/
def RELOAD_ALL : Nat := 1

/-- State read by the reload stanza of the main loop. -/
structure ReloadState where
  numClients : Nat
  jobStates : List Int
  needReload : Nat
  now : Int
  reloadTime : Int
  reloadTimeout : Int
  deriving DecidableEq

/-- The scan `for (job = Jobs; job; job = job->next) if (state == IPP_JOB_PROCESSING) break`. -/
def anyProcessing (jobStates : List Int) : Bool :=
  jobStates.any (fun s => s == IPP_JOB_PROCESSING)

/-- The restart condition from the main loop:
`(NumClients == 0 && (!job || NeedReload != RELOAD_ALL)) || (time(NULL) - ReloadTime) >= ReloadTimeout`. -/
def reload_fires (st : ReloadState) : Bool :=
  (st.numClients == 0 && (!(anyProcessing st.jobStates) || st.needReload != RELOAD_ALL))
    || decide (st.reloadTimeout ≤ st.now - st.reloadTime)

/-- The reload condition as the claim states it: no clients remain and no job
is Processing, or the reload timeout has elapsed. -/
def reload_claim_cond (st : ReloadState) : Prop :=
  (st.numClients = 0 ∧ anyProcessing st.jobStates = false) ∨
    st.reloadTimeout ≤ st.now - st.reloadTime

/-- A state with the reload flag set to a non-`RELOAD_ALL` kind, no clients,
one Processing job, and the timeout not yet elapsed. -/
def reloadCex : ReloadState :=
  { numClients := 0, jobStates := [5], needReload := 2,
    now := 0, reloadTime := 0, reloadTimeout := 100 }

/-- C5 counterexample: with the reload flag set (to a non-`RELOAD_ALL`
value), no clients, a Processing job, and the timeout not elapsed, the code
reloads although the claim says it must not. -/
theorem reload_condition_cex :
    reload_fires reloadCex = true ∧ ¬ reload_claim_cond reloadCex ∧ reloadCex.needReload ≠ 0 := by
  refine ⟨by decide, ?_, by decide⟩
  intro h
  rcases h with ⟨_, h⟩ | h
  · simp [reloadCex, anyProcessing, IPP_JOB_PROCESSING] at h
  · revert h; decide

/-- C5 (amended): while the reload flag is set, the configuration is
reloaded exactly when (no clients remain AND (no job is Processing OR the
flag is not `RELOAD_ALL`)) or the reload timeout has elapsed; in particular,
with clients remaining and the timeout not elapsed, no reload occurs. -/
theorem reload_condition (st : ReloadState) (hflag : st.needReload ≠ 0) :
    (reload_fires st = true ↔
      ((st.numClients = 0 ∧ (anyProcessing st.jobStates = false ∨ st.needReload ≠ RELOAD_ALL)) ∨
        st.reloadTimeout ≤ st.now - st.reloadTime)) ∧
    (st.numClients ≠ 0 → st.now - st.reloadTime < st.reloadTimeout →
      reload_fires st = false) := by
  constructor
  · simp only [reload_fires, Bool.or_eq_true, Bool.and_eq_true, Bool.not_eq_eq_eq_not,
      Bool.not_true, beq_iff_eq, bne_iff_ne, ne_eq, decide_eq_true_eq]
  · intro hc ht
    simp only [reload_fires, Bool.or_eq_false_iff, Bool.and_eq_false_iff,
      decide_eq_false_iff_not, not_le]
    exact ⟨Or.inl (by simpa using hc), ht⟩

/-- A state with one client and the reload timeout elapsed. -/
def reloadElapsed : ReloadState :=
  { numClients := 1, jobStates := [], needReload := 1,
    now := 50, reloadTime := 0, reloadTimeout := 10 }

/-- C5 witness: the amended condition evaluated on a concrete state whose
timeout has elapsed. -/
theorem reload_condition_witness : reload_fires reloadElapsed = true :=
  (reload_condition reloadElapsed (by decide)).1.mpr (Or.inr (by decide))

/-! ## Scheduler: child reaper (scheduler/main.c, lines 1257-1373) -/

/-- Signal number `SIGTERM` (POSIX value 15). -/
def SIGTERM : Int := 15

/-- The per-job data the reaper touches: the pid slots of the pipeline (the
non-zero prefix of `job->procs[]`, which is 0-terminated in the source) and
the overall disposition `job->status`. -/
structure JobRec where
  procs : List Int
  status : Int
  deriving DecidableEq

/-- Index of the first slot holding `pid`, mirroring
`for (i = 0; job->procs[i]; i ++) if (job->procs[i] == pid) break;`. -/
def proc_index : List Int → Int → Option Nat
  | [], _ => none
  | q :: rest, pid => if q = pid then some 0 else (proc_index rest pid).map (· + 1)

/-- The reaper's per-child update on the owning job, from
`process_children`: a raw status equal to `SIGTERM` is treated as 0; the
slot is replaced by `-pid`; if the (normalized) status is non-zero and
`job->status >= 0`, the disposition becomes `-status` when the next slot is
the 0 terminator (backend, last slot) and `status` otherwise. -/
def reap_child (job : JobRec) (pid status0 : Int) : JobRec :=
  let status := if status0 = SIGTERM then 0 else status0
  match proc_index job.procs pid with
  | none => job
  | some i =>
      { procs := job.procs.set i (-pid)
        status :=
          if status ≠ 0 ∧ 0 ≤ job.status then
            if job.procs.getD (i + 1) 0 = 0 then -status else status
          else job.status }

/-- C4 counterexample: a job whose disposition is already set to 5 (an
earlier filter failure); reaping a non-last slot with status 3 overwrites
the disposition, although the claim says an already-set disposition is left
unchanged. -/
theorem reap_overwrite_cex :
    (reap_child { procs := [101, 102], status := 5 } 101 3).status = 3 ∧
    (5 : Int) ≠ 0 ∧ (5 : Int) ≠ 3 := by decide

/-- C4 (amended): for a child reaped with a non-zero (and non-`SIGTERM`)
status whose pid occupies a slot of the pipeline, if the job's disposition
is not already negative the reaper records `-status` for the last slot and
`status` otherwise (overwriting any previously recorded non-negative
disposition); an already-negative disposition is left unchanged. -/
theorem reap_disposition (job : JobRec) (pid status : Int) (i : Nat)
    (hfind : proc_index job.procs pid = some i)
    (hterm : status ≠ SIGTERM) (hnz : status ≠ 0) :
    (0 ≤ job.status →
      (reap_child job pid status).status =
        (if job.procs.getD (i + 1) 0 = 0 then -status else status)) ∧
    (job.status < 0 → (reap_child job pid status).status = job.status) := by
  unfold reap_child
  rw [hfind]
  simp only [if_neg hterm]
  constructor
  · intro hpos
    rw [if_pos ⟨hnz, hpos⟩]
  · intro hneg
    rw [if_neg]
    rintro ⟨_, h⟩
    omega

/-- C4 witness: the amended disposition rule evaluated on a concrete
pipeline, once for the last slot and once for a middle slot. -/
theorem reap_disposition_witness :
    (reap_child { procs := [101, 102], status := 0 } 102 2).status = -2 ∧
    (reap_child { procs := [101, 102], status := 0 } 101 2).status = 2 := by
  constructor
  · have h := (reap_disposition { procs := [101, 102], status := 0 } 102 2 1
      (by decide) (by decide) (by decide)).1 (by decide)
    rw [h]; decide
  · have h := (reap_disposition { procs := [101, 102], status := 0 } 101 2 0
      (by decide) (by decide) (by decide)).1 (by decide)
    rw [h]; decide

/-! ## Scheduler: signal hold/release (scheduler/main.c, lines 1108-1179) -/

/-- `HoldSignals`: increments the nesting count (`holdcount ++`). -/
def HoldSignals (holdcount : Int) : Int := holdcount + 1

/-- `ReleaseSignals`: decrements the nesting count unconditionally
(`holdcount --`). -/
def ReleaseSignals (holdcount : Int) : Int := holdcount - 1

/-- One call to either facility. -/
inductive SigOp where
  | hold
  | release
  deriving DecidableEq

/-- Run a call sequence from a given nesting count. -/
def run_sigops : Int → List SigOp → Int
  | c, [] => c
  | c, SigOp.hold :: rest => run_sigops (HoldSignals c) rest
  | c, SigOp.release :: rest => run_sigops (ReleaseSignals c) rest

/-- Number of `HoldSignals` calls in a sequence. -/
def holdCalls (ops : List SigOp) : Nat :=
  ops.countP (fun o => match o with | SigOp.hold => true | SigOp.release => false)

/-- Number of `ReleaseSignals` calls in a sequence. -/
def releaseCalls (ops : List SigOp) : Nat :=
  ops.countP (fun o => match o with | SigOp.hold => false | SigOp.release => true)

/-- The count after a run is the start plus holds minus releases. -/
theorem run_sigops_eq (ops : List SigOp) (c : Int) :
    run_sigops c ops = c + holdCalls ops - releaseCalls ops := by
  induction ops generalizing c with
  | nil => simp [run_sigops, holdCalls, releaseCalls]
  | cons o rest ih =>
      cases o <;>
        simp only [run_sigops, HoldSignals, ReleaseSignals, holdCalls, releaseCalls,
          List.countP_cons, ih] <;> push_cast <;> ring

/-- C9 counterexample: the sequence consisting of a single `ReleaseSignals`
call drives the nesting count to -1, so it does not remain ≥ 0 for every
call sequence. -/
theorem holdcount_negative_cex : run_sigops 0 [SigOp.release] < 0 := by decide

/-- C9 (amended): starting from the initial count 0, at any point of the
sequence at which the `ReleaseSignals` calls made so far do not outnumber
the `HoldSignals` calls made so far, the nesting count is ≥ 0.  (The source
provides no guard; balance is the callers' obligation.) -/
theorem holdcount_nonneg (ops : List SigOp) (n : Nat)
    (hbal : releaseCalls (ops.take n) ≤ holdCalls (ops.take n)) :
    0 ≤ run_sigops 0 (ops.take n) := by
  rw [run_sigops_eq]
  omega

/-- C9 witness: the balance invariant evaluated after the first element of
a concrete hold/release sequence. -/
theorem holdcount_nonneg_witness :
    0 ≤ run_sigops 0 ([SigOp.hold, SigOp.release].take 1) :=
  holdcount_nonneg [SigOp.hold, SigOp.release] 1 (by decide)

/-! ## USB backend: IEEE-1284 device-ID decode (usb-libusb.c, lines 817-880) -/

/-- The decode half of `get_device_id`, applied to the buffer contents of a
successful control transfer (`buffer` holds all `bufsize` bytes, payload
first, unspecified tail after it).  Big-endian length first, the
little-endian fallback when that is over the buffer or under 14, the clamp
to the buffer, the final minimum check, then stripping of the two length
bytes; `none` models the source storing an empty string and returning -1,
`some payload` models the NUL-terminated payload left in the buffer. -/
def get_device_id_decode (buffer : List Nat) (bufsize : Nat) : Option (List Nat) :=
  let length0 := (buffer.getD 0 0) * 256 + buffer.getD 1 0
  let length1 := if length0 > bufsize ∨ length0 < 14 then
                   (buffer.getD 1 0) * 256 + buffer.getD 0 0
                 else length0
  let length2 := if length1 > bufsize then bufsize else length1
  if length2 < 14 then none
  else some ((buffer.drop 2).take (length2 - 2))

/-- The decode as the claim words it: decode the first two bytes big-endian;
if that exceeds the buffer size or is under 14 re-decode them little-endian;
clamp to the buffer size; fail if still under 14; otherwise remove the two
length bytes and keep length-2 payload bytes. -/
def device_id_claim (buffer : List Nat) (bufsize : Nat) : Option (List Nat) :=
  let be := (buffer.getD 0 0) * 256 + buffer.getD 1 0
  let le := (buffer.getD 1 0) * 256 + buffer.getD 0 0
  let chosen := if bufsize < be ∨ be < 14 then le else be
  let final := min chosen bufsize
  if 14 ≤ final then some ((buffer.drop 2).take (final - 2)) else none

/-- C6: the decode step of `get_device_id` behaves exactly as the claim
describes, for every transfer buffer. -/
theorem device_id_decode_correct (buffer : List Nat) (bufsize : Nat)
    (hlen : buffer.length = bufsize) :
    get_device_id_decode buffer bufsize = device_id_claim buffer bufsize := by
  unfold get_device_id_decode device_id_claim
  have hmin : ∀ a b : Nat, (if a > b then b else a) = min a b := by
    intro a b; rw [Nat.min_def]; split_ifs <;> omega
  simp only [gt_iff_lt, hmin]
  by_cases hbe : bufsize < (buffer.getD 0 0) * 256 + buffer.getD 1 0 ∨
      (buffer.getD 0 0) * 256 + buffer.getD 1 0 < 14
  · rw [if_pos hbe]
    split_ifs <;> first | rfl | omega
  · rw [if_neg hbe]
    split_ifs <;> first | rfl | omega

/-- C6 witness: the decode evaluated on a concrete 16-byte transfer buffer
holding a 14-byte device ID. -/
theorem device_id_decode_correct_witness :
    get_device_id_decode ([0, 16] ++ List.replicate 14 65) 16 =
      device_id_claim ([0, 16] ++ List.replicate 14 65) 16 :=
  device_id_decode_correct ([0, 16] ++ List.replicate 14 65) 16 (by decide)

/-- A wire message for a device-ID payload: the total length `|P| + 2` in a
two-byte prefix, most significant byte first when `bigEndian`, least
significant byte first otherwise, followed by the payload. -/
def build_device_id (bigEndian : Bool) (P : List Nat) : List Nat :=
  match bigEndian with
  | true => (P.length + 2) / 256 :: (P.length + 2) % 256 :: P
  | false => (P.length + 2) % 256 :: (P.length + 2) / 256 :: P

set_option maxRecDepth 8000 in
/-- C7 counterexample: (a) the empty payload fits the buffer (0 + 2 ≤ 2) but
is not recovered, since both length readings of its prefix are under 14; (b)
a 258-byte payload with a little-endian prefix is not recovered either,
because the big-endian reading of its prefix (1025) is inside the accepted
range and wins. -/
theorem device_id_roundtrip_cex :
    get_device_id_decode (build_device_id true [] ++ []) 2 ≠ some [] ∧
    get_device_id_decode
        (build_device_id false (List.replicate 258 7) ++ List.replicate 765 0) 1025 ≠
      some (List.replicate 258 7) := by
  constructor
  · decide
  · have hde : get_device_id_decode
        (build_device_id false (List.replicate 258 7) ++ List.replicate 765 0) 1025 =
        some (List.replicate 258 7 ++ List.replicate 765 0) := by
      unfold get_device_id_decode build_device_id
      simp only [List.length_replicate, List.cons_append, List.getD_cons_zero,
        List.getD_cons_succ, List.drop_succ_cons, List.drop_zero]
      norm_num
    rw [hde]
    intro h
    have hlen := congrArg (fun o : Option (List Nat) => o.map List.length) h
    simp at hlen

/-- C7 (amended): a payload of at least 12 bytes whose message fits the
buffer round-trips through the decode when the prefix is big-endian; with a
little-endian prefix it round-trips provided the big-endian reading of the
prefix falls outside the accepted range (over the buffer size or under 14),
which is what triggers the fallback. -/
theorem device_id_roundtrip (P pad : List Nat) (bufsize : Nat)
    (h12 : 12 ≤ P.length) (hmax : P.length + 2 ≤ 65535)
    (hsize : bufsize = P.length + 2 + pad.length) :
    get_device_id_decode (build_device_id true P ++ pad) bufsize = some P ∧
    (bufsize < (P.length + 2) % 256 * 256 + (P.length + 2) / 256 ∨
        (P.length + 2) % 256 * 256 + (P.length + 2) / 256 < 14 →
      get_device_id_decode (build_device_id false P ++ pad) bufsize = some P) := by
  have hdm : (P.length + 2) / 256 * 256 + (P.length + 2) % 256 = P.length + 2 := by omega
  have htake : ((P ++ pad).take P.length) = P := by
    simpa using List.take_left P pad
  constructor
  · unfold get_device_id_decode build_device_id
    simp only [List.cons_append, List.getD_cons_zero, List.getD_cons_succ,
      List.drop_succ_cons, List.drop_zero, hdm]
    rw [if_neg (show ¬ (P.length + 2 > bufsize ∨ P.length + 2 < 14) from by omega)]
    rw [if_neg (show ¬ (P.length + 2 > bufsize) from by omega)]
    rw [if_neg (show ¬ (P.length + 2 < 14) from by omega)]
    rw [show P.length + 2 - 2 = P.length from by omega, htake]
  · intro hfall
    unfold get_device_id_decode build_device_id
    simp only [List.cons_append, List.getD_cons_zero, List.getD_cons_succ,
      List.drop_succ_cons, List.drop_zero]
    rw [if_pos (show (P.length + 2) % 256 * 256 + (P.length + 2) / 256 > bufsize ∨
          (P.length + 2) % 256 * 256 + (P.length + 2) / 256 < 14 from by omega)]
    rw [hdm]
    rw [if_neg (show ¬ (P.length + 2 > bufsize) from by omega)]
    rw [if_neg (show ¬ (P.length + 2 < 14) from by omega)]
    rw [show P.length + 2 - 2 = P.length from by omega, htake]

/-- C7 witness: a 12-byte payload in a 14-byte buffer, round-tripped with a
big-endian prefix, and the same payload with a little-endian prefix (whose
big-endian reading, 3584, exceeds the buffer). -/
theorem device_id_roundtrip_witness :
    get_device_id_decode (build_device_id true (List.replicate 12 65) ++ []) 14 =
      some (List.replicate 12 65) ∧
    get_device_id_decode (build_device_id false (List.replicate 12 65) ++ []) 14 =
      some (List.replicate 12 65) := by
  have h := device_id_roundtrip (List.replicate 12 65) [] 14 (by decide) (by decide) (by decide)
  exact ⟨h.1, h.2 (by decide)⟩

/-! ## USB backend: GET_DEVICE_ID side-channel reply (usb-libusb.c, lines 1460-1485) -/

/-- Side-channel status `CUPS_SC_STATUS_OK` (public CUPS value 1). -/
def CUPS_SC_STATUS_OK : Nat := 1

/-- Side-channel status `CUPS_SC_STATUS_IO_ERROR` (public CUPS value 2). -/
def CUPS_SC_STATUS_IO_ERROR : Nat := 2

/-- The status byte and data length passed to `cupsSideChannelWrite`. -/
structure SCReply where
  status : Nat
  datalen : Nat
  deriving DecidableEq

/-- The `CUPS_SC_CMD_GET_DEVICE_ID` case of `sidechannel_thread`.
`transferBuf` is the result of the control transfer inside `get_device_id`
(`none` for a failed transfer); the fetch fails when the transfer fails or
the decoded length stays under 14.  On failure the source sets a local
`status` variable to `CUPS_SC_STATUS_IO_ERROR` and `datalen` to 0, on
success `datalen` to `strlen(data)` — but the subsequent write passes the
literal `CUPS_SC_STATUS_OK`, not the local variable, so the reply status is
always `CUPS_SC_STATUS_OK`. -/
def handle_get_device_id (transferBuf : Option (List Nat)) (bufsize : Nat) : SCReply :=
  let fetch := match transferBuf with
    | none => none
    | some buffer => get_device_id_decode buffer bufsize
  match fetch with
  | none => { status := CUPS_SC_STATUS_OK, datalen := 0 }
  | some payload => { status := CUPS_SC_STATUS_OK, datalen := (payload.takeWhile (· != 0)).length }

/-- C2: when the device-ID fetch fails, the reply written back carries
status `CUPS_SC_STATUS_OK` with zero data bytes — not
`CUPS_SC_STATUS_IO_ERROR` as the dead local assignment (and the spec)
intend; the success path does reply OK with the device-ID bytes. -/
theorem get_device_id_reply_bug :
    (handle_get_device_id none 2048).status = CUPS_SC_STATUS_OK ∧
    (handle_get_device_id none 2048).datalen = 0 ∧
    CUPS_SC_STATUS_OK ≠ CUPS_SC_STATUS_IO_ERROR ∧
    handle_get_device_id (some ([0, 14] ++ List.replicate 12 65)) 14 =
      { status := CUPS_SC_STATUS_OK, datalen := 12 } := by decide

/-! ## USB backend: device finder (usb-libusb.c, lines 703-795)

The per-interface selection loop of `find_device`.  All of `endp`,
`read_endp`, `write_endp` and `protocol` are `uint8_t` in the source, so the
initialisation `read_endp = write_endp = -1` stores 255, and the guard
`write_endp >= 0` is an unsigned comparison that is always true. -/

/-- One `libusb_endpoint_descriptor`. -/
structure Endpoint where
  bmAttributes : Nat
  bEndpointAddress : Nat
  deriving DecidableEq

/-- Default endpoint used only to totalise list indexing in statements. -/
def epDefault : Endpoint := { bmAttributes := 0, bEndpointAddress := 0 }

/-- A bulk (`bmAttributes & LIBUSB_TRANSFER_TYPE_MASK == LIBUSB_TRANSFER_TYPE_BULK`,
mask 3 and value 2) endpoint with device-to-host direction
(`bEndpointAddress & LIBUSB_ENDPOINT_DIR_MASK`, mask 0x80, non-zero). -/
def isBulkIn (e : Endpoint) : Prop :=
  e.bmAttributes &&& 3 = 2 ∧ e.bEndpointAddress &&& 128 ≠ 0

/-- A bulk endpoint with host-to-device direction. -/
def isBulkOut (e : Endpoint) : Prop :=
  e.bmAttributes &&& 3 = 2 ∧ e.bEndpointAddress &&& 128 = 0

instance (e : Endpoint) : Decidable (isBulkIn e) := by unfold isBulkIn; infer_instance

instance (e : Endpoint) : Decidable (isBulkOut e) := by unfold isBulkOut; infer_instance

/-- The endpoint loop of `find_device`, with the running endpoint index and
the running `(read_endp, write_endp)` pair (started from `(255, 255)`, the
`uint8_t` image of -1). -/
def scan_endpoints_from : List Endpoint → Nat → Nat × Nat → Nat × Nat
  | [], _, rw => rw
  | e :: rest, i, (r, w) =>
      scan_endpoints_from rest (i + 1)
        (if e.bmAttributes &&& 3 = 2 then
           if e.bEndpointAddress &&& 128 ≠ 0 then (i, w) else (r, i)
         else (r, w))

/-- The endpoint scan over one alternate setting. -/
def scan_endpoints (eps : List Endpoint) : Nat × Nat :=
  scan_endpoints_from eps 0 (255, 255)

/-- One `libusb_interface_descriptor` (an alternate setting). -/
structure AltSetting where
  bInterfaceClass : Nat
  bInterfaceSubClass : Nat
  bInterfaceProtocol : Nat
  endpoints : List Endpoint
  deriving DecidableEq

/-- The printer-class filter of the alt-setting loop:
class `LIBUSB_CLASS_PRINTER` (7), subclass 1, protocol 1 or 2. -/
def eligible (a : AltSetting) : Prop :=
  a.bInterfaceClass = 7 ∧ a.bInterfaceSubClass = 1 ∧
    (a.bInterfaceProtocol = 1 ∨ a.bInterfaceProtocol = 2)

instance (a : AltSetting) : Decidable (eligible a) := by unfold eligible; infer_instance

/-- The best-match fields of `printer` written by the alt-setting loop. -/
structure BestMatch where
  protocol : Nat
  altset : Nat
  read_endp : Nat
  write_endp : Nat
  deriving DecidableEq

/-- The alt-setting loop of `find_device` for one interface: skip non-printer
alt-settings and those with a protocol below the best so far; otherwise scan
endpoints and save the match whenever `write_endp >= 0` — which, on
`uint8_t`, always holds. -/
def scan_alts_from : List AltSetting → Nat → BestMatch → BestMatch
  | [], _, b => b
  | a :: rest, i, b =>
      if a.bInterfaceClass ≠ 7 ∨ a.bInterfaceSubClass ≠ 1 ∨
          (a.bInterfaceProtocol ≠ 1 ∧ a.bInterfaceProtocol ≠ 2) ∨
          a.bInterfaceProtocol < b.protocol then
        scan_alts_from rest (i + 1) b
      else
        let rw := scan_endpoints a.endpoints
        if rw.2 ≥ 0 then
          scan_alts_from rest (i + 1)
            { protocol := a.bInterfaceProtocol, altset := i,
              read_endp := rw.1, write_endp := rw.2 }
        else scan_alts_from rest (i + 1) b

/-- The alt-setting scan over one interface (`protocol` starts at 0; the
interface is used when the final protocol is positive). -/
def scan_alts (alts : List AltSetting) : BestMatch :=
  scan_alts_from alts 0 { protocol := 0, altset := 0, read_endp := 0, write_endp := 0 }

/-- The highest protocol value among the printer-class alt-settings (0 when
there is none). -/
def maxEligible (alts : List AltSetting) : Nat :=
  alts.foldr (fun a m => if eligible a then max a.bInterfaceProtocol m else m) 0

/-- The first component of the endpoint scan records the base value if no
bulk-in endpoint exists and the offset index of the last bulk-in endpoint
otherwise; symmetrically for the second component and bulk-out. -/
theorem scan_endpoints_from_char (eps : List Endpoint) (i r w : Nat) :
    (((∀ j, j < eps.length → ¬ isBulkIn (eps.getD j epDefault)) ∧
        (scan_endpoints_from eps i (r, w)).1 = r) ∨
      (∃ j, j < eps.length ∧ isBulkIn (eps.getD j epDefault) ∧
        (scan_endpoints_from eps i (r, w)).1 = i + j ∧
        ∀ k, j < k → k < eps.length → ¬ isBulkIn (eps.getD k epDefault))) ∧
    (((∀ j, j < eps.length → ¬ isBulkOut (eps.getD j epDefault)) ∧
        (scan_endpoints_from eps i (r, w)).2 = w) ∨
      (∃ j, j < eps.length ∧ isBulkOut (eps.getD j epDefault) ∧
        (scan_endpoints_from eps i (r, w)).2 = i + j ∧
        ∀ k, j < k → k < eps.length → ¬ isBulkOut (eps.getD k epDefault))) := by
  induction eps generalizing i r w with
  | nil => exact ⟨Or.inl ⟨fun j hj => absurd hj (by simp), rfl⟩,
      Or.inl ⟨fun j hj => absurd hj (by simp), rfl⟩⟩
  | cons e rest ih =>
      have hstep : ∀ r' w',
          (if e.bmAttributes &&& 3 = 2 then
             if e.bEndpointAddress &&& 128 ≠ 0 then (i, w') else (r', i)
           else (r', w')) =
          ((if isBulkIn e then i else r'), (if isBulkOut e then i else w')) := by
        intro r' w'
        by_cases hb : e.bmAttributes &&& 3 = 2
        · by_cases hd : e.bEndpointAddress &&& 128 ≠ 0
          · rw [if_pos hb, if_pos hd, if_pos ⟨hb, hd⟩, if_neg (fun h => hd h.2)]
          · rw [if_pos hb, if_neg hd, if_neg (fun h => hd h.2),
              if_pos ⟨hb, not_not.mp hd⟩]
        · rw [if_neg hb, if_neg (fun h : isBulkIn e => hb h.1),
            if_neg (fun h : isBulkOut e => hb h.1)]
      have hun : scan_endpoints_from (e :: rest) i (r, w) =
          scan_endpoints_from rest (i + 1)
            ((if isBulkIn e then i else r), (if isBulkOut e then i else w)) := by
        rw [scan_endpoints_from, hstep]
      rw [hun]
      obtain ⟨ihr, ihw⟩ := ih (i + 1) (if isBulkIn e then i else r) (if isBulkOut e then i else w)
      constructor
      · rcases ihr with ⟨hnone, heq⟩ | ⟨j, hj, hbi, heq, hlast⟩
        · by_cases hbe : isBulkIn e
          · refine Or.inr ⟨0, by simp, by simpa using hbe, ?_, ?_⟩
            · rw [heq, if_pos hbe]; omega
            · intro k hk0 hklen
              obtain ⟨k', rfl⟩ : ∃ k', k = k' + 1 := ⟨k - 1, by omega⟩
              simpa using hnone k' (by simpa using hklen)
          · refine Or.inl ⟨?_, by rw [heq, if_neg hbe]⟩
            intro j hj
            match j with
            | 0 => simpa using hbe
            | j' + 1 => simpa using hnone j' (by simpa using hj)
        · refine Or.inr ⟨j + 1, by simpa using hj, by simpa using hbi, by rw [heq]; omega, ?_⟩
          intro k hk0 hklen
          obtain ⟨k', rfl⟩ : ∃ k', k = k' + 1 := ⟨k - 1, by omega⟩
          simpa using hlast k' (by omega) (by simpa using hklen)
      · rcases ihw with ⟨hnone, heq⟩ | ⟨j, hj, hbi, heq, hlast⟩
        · by_cases hbe : isBulkOut e
          · refine Or.inr ⟨0, by simp, by simpa using hbe, ?_, ?_⟩
            · rw [heq, if_pos hbe]; omega
            · intro k hk0 hklen
              obtain ⟨k', rfl⟩ : ∃ k', k = k' + 1 := ⟨k - 1, by omega⟩
              simpa using hnone k' (by simpa using hklen)
          · refine Or.inl ⟨?_, by rw [heq, if_neg hbe]⟩
            intro j hj
            match j with
            | 0 => simpa using hbe
            | j' + 1 => simpa using hnone j' (by simpa using hj)
        · refine Or.inr ⟨j + 1, by simpa using hj, by simpa using hbi, by rw [heq]; omega, ?_⟩
          intro k hk0 hklen
          obtain ⟨k', rfl⟩ : ∃ k', k = k' + 1 := ⟨k - 1, by omega⟩
          simpa using hlast k' (by omega) (by simpa using hklen)

/-- The final protocol of the alt-setting loop is the maximum of the running
best protocol and the protocols of the remaining eligible alt-settings. -/
theorem scan_alts_from_protocol (alts : List AltSetting) (i : Nat) (b : BestMatch) :
    (scan_alts_from alts i b).protocol = max b.protocol (maxEligible alts) := by
  induction alts generalizing i b with
  | nil => simp [scan_alts_from, maxEligible]
  | cons a rest ih =>
      rw [scan_alts_from]
      by_cases hel : eligible a
      · obtain ⟨h7, h1, hp⟩ := hel
        by_cases hlow : a.bInterfaceProtocol < b.protocol
        · rw [if_pos (by tauto), ih]
          have : maxEligible (a :: rest) = max a.bInterfaceProtocol (maxEligible rest) := by
            simp [maxEligible, List.foldr, if_pos (show eligible a from ⟨h7, h1, hp⟩)]
          rw [this]
          omega
        · rw [if_neg (by push_neg; exact ⟨h7, h1, fun hne1 => by tauto, by omega⟩)]
          rw [if_pos (Nat.zero_le _), ih]
          have : maxEligible (a :: rest) = max a.bInterfaceProtocol (maxEligible rest) := by
            simp [maxEligible, List.foldr, if_pos (show eligible a from ⟨h7, h1, hp⟩)]
          rw [this]
          simp only []
          omega
      · have hcond : a.bInterfaceClass ≠ 7 ∨ a.bInterfaceSubClass ≠ 1 ∨
            (a.bInterfaceProtocol ≠ 1 ∧ a.bInterfaceProtocol ≠ 2) ∨
            a.bInterfaceProtocol < b.protocol := by
          unfold eligible at hel
          tauto
        rw [if_pos hcond, ih]
        have : maxEligible (a :: rest) = maxEligible rest := by
          simp [maxEligible, List.foldr, if_neg hel]
        rw [this]

/-- An eligible alt-setting has protocol 1 or 2, so the eligible maximum is
positive exactly when an eligible alt-setting exists. -/
theorem maxEligible_pos_iff (alts : List AltSetting) :
    maxEligible alts ≠ 0 ↔ ∃ a, a ∈ alts ∧ eligible a := by
  induction alts with
  | nil => simp [maxEligible]
  | cons a rest ih =>
      by_cases hel : eligible a
      · have hproto : 1 ≤ a.bInterfaceProtocol := by
          rcases hel.2.2 with h | h <;> omega
        constructor
        · intro _; exact ⟨a, by simp, hel⟩
        · intro _
          have : maxEligible (a :: rest) = max a.bInterfaceProtocol (maxEligible rest) := by
            simp [maxEligible, List.foldr, if_pos hel]
          omega
      · have heq : maxEligible (a :: rest) = maxEligible rest := by
          simp [maxEligible, List.foldr, if_neg hel]
        rw [heq, ih]
        constructor
        · rintro ⟨x, hx, hex⟩; exact ⟨x, by simp [hx], hex⟩
        · rintro ⟨x, hx, hex⟩
          rcases List.mem_cons.mp hx with rfl | hx
          · exact absurd hex hel
          · exact ⟨x, hx, hex⟩

/-- A concrete interface: one eligible bidirectional alt-setting whose two
endpoints are both bulk device-to-host, with no bulk host-to-device
endpoint at all. -/
def altsCex : List AltSetting :=
  [{ bInterfaceClass := 7, bInterfaceSubClass := 1, bInterfaceProtocol := 2,
     endpoints := [{ bmAttributes := 2, bEndpointAddress := 129 },
                   { bmAttributes := 2, bEndpointAddress := 130 }] }]

/-- Default alternate setting used only to totalise list indexing in
statements. -/
def altDefault : AltSetting :=
  { bInterfaceClass := 0, bInterfaceSubClass := 0, bInterfaceProtocol := 0, endpoints := [] }

/-- C3 counterexample: on `altsCex` the finder accepts the alt-setting even
though it has no bulk host-to-device endpoint (`write_endp` stays at the
unsigned image of -1), and it records the second (last) bulk device-to-host
endpoint rather than the first. -/
theorem find_device_selection_cex :
    (scan_alts altsCex).protocol ≠ 0 ∧
    (scan_alts altsCex).write_endp = 255 ∧
    (scan_alts altsCex).read_endp = 1 ∧
    ¬ isBulkOut ((altsCex.getD 0 altDefault).endpoints.getD 0 epDefault) ∧
    ¬ isBulkOut ((altsCex.getD 0 altDefault).endpoints.getD 1 epDefault) := by
  decide

/-- C3 (amended): the endpoint recorded in each component of the scan is the
last (not first) listed bulk endpoint of the matching direction, or 255 (the
`uint8_t` image of the -1 sentinel) when none exists; the selected protocol
of an interface is the highest among its printer-class alt-settings; and an
interface is accepted exactly when it has a printer-class alt-setting —
regardless of whether that alt-setting has any bulk host-to-device endpoint,
since the `write_endp >= 0` test is always true on `uint8_t`. -/
theorem find_device_selection :
    (∀ eps : List Endpoint,
      (((∀ j, j < eps.length → ¬ isBulkIn (eps.getD j epDefault)) ∧
          (scan_endpoints eps).1 = 255) ∨
        (∃ j, j < eps.length ∧ isBulkIn (eps.getD j epDefault) ∧
          (scan_endpoints eps).1 = j ∧
          ∀ k, j < k → k < eps.length → ¬ isBulkIn (eps.getD k epDefault))) ∧
      (((∀ j, j < eps.length → ¬ isBulkOut (eps.getD j epDefault)) ∧
          (scan_endpoints eps).2 = 255) ∨
        (∃ j, j < eps.length ∧ isBulkOut (eps.getD j epDefault) ∧
          (scan_endpoints eps).2 = j ∧
          ∀ k, j < k → k < eps.length → ¬ isBulkOut (eps.getD k epDefault)))) ∧
    (∀ alts : List AltSetting, (scan_alts alts).protocol = maxEligible alts) ∧
    (∀ alts : List AltSetting,
      ((scan_alts alts).protocol ≠ 0 ↔ ∃ a, a ∈ alts ∧ eligible a)) := by
  refine ⟨fun eps => ?_, fun alts => ?_, fun alts => ?_⟩
  · have h := scan_endpoints_from_char eps 0 255 255
    simpa [scan_endpoints] using h
  · rw [scan_alts, scan_alts_from_protocol]
    simp
  · rw [scan_alts, scan_alts_from_protocol]
    simpa using maxEligible_pos_iff alts

/-- A concrete interface with one bulk-in and one bulk-out endpoint. -/
def altsBidi : List AltSetting :=
  [{ bInterfaceClass := 7, bInterfaceSubClass := 1, bInterfaceProtocol := 2,
     endpoints := [{ bmAttributes := 2, bEndpointAddress := 129 },
                   { bmAttributes := 2, bEndpointAddress := 1 }] }]

/-- C3 witness: the amended characterization evaluated on a concrete
interface with one bulk-in and one bulk-out endpoint. -/
theorem find_device_selection_witness :
    (scan_alts altsBidi).protocol = maxEligible altsBidi :=
  find_device_selection.2.1 altsBidi

/-! ## USB backend: writer loop of `print_device` (usb-libusb.c, lines 281-476) -/

/-- Backend exit code `CUPS_BACKEND_OK` (public CUPS value 0). -/
def CUPS_BACKEND_OK : Int := 0

/-- Backend exit code `CUPS_BACKEND_FAILED` (public CUPS value 1). -/
def CUPS_BACKEND_FAILED : Int := 1

/-- Backend exit code `CUPS_BACKEND_STOP` (public CUPS value 4). -/
def CUPS_BACKEND_STOP : Int := 4

/-- libusb status `LIBUSB_ERROR_TIMEOUT` (public value -7). -/
def LIBUSB_ERROR_TIMEOUT : Int := -7

/-- libusb status `LIBUSB_ERROR_PIPE` (public value -9). -/
def LIBUSB_ERROR_PIPE : Int := -9

/-- libusb status `LIBUSB_ERROR_INTERRUPTED` (public value -10). -/
def LIBUSB_ERROR_INTERRUPTED : Int := -10

/-- errno `EINTR` (POSIX value 4). -/
def EINTR : Int := 4

/-- errno `EAGAIN` (Darwin value 35). -/
def EAGAIN : Int := 35

/-- The result of one `libusb_bulk_transfer` call: the returned status and
the transferred byte count it reports (which libusb fills in even on a
timeout). -/
structure XferRes where
  iostatus : Int
  bytes : Int
  deriving DecidableEq

/-- Outcome of the bulk-write stanza: proceed with the byte count the code
goes on to use, or fall into the fatal `if (iostatus)` branch. -/
inductive WriteOutcome where
  | ok (bytes : Int)
  | fail
  deriving DecidableEq

/-- The bulk-write stanza of the writer loop, given the result of the first
transfer and of the (at most one) retried transfer; the second component
counts how many transfers were issued.  `TIMEOUT` clears the status and
keeps the reported byte count; `PIPE` and `INTERRUPTED` retry exactly once;
then any remaining non-zero status is fatal. -/
def bulk_write_step (first retry : XferRes) : WriteOutcome × Nat :=
  if first.iostatus = LIBUSB_ERROR_TIMEOUT then
    (WriteOutcome.ok first.bytes, 1)
  else if first.iostatus = LIBUSB_ERROR_PIPE then
    (if retry.iostatus ≠ 0 then WriteOutcome.fail else WriteOutcome.ok retry.bytes, 2)
  else if first.iostatus = LIBUSB_ERROR_INTERRUPTED then
    (if retry.iostatus ≠ 0 then WriteOutcome.fail else WriteOutcome.ok retry.bytes, 2)
  else
    (if first.iostatus ≠ 0 then WriteOutcome.fail else WriteOutcome.ok first.bytes, 1)

/-- The writer-loop state carried between iterations: `g.print_bytes`,
`total_bytes`, and `g.drain_output`. -/
structure IterState where
  print_bytes : Int
  total_bytes : Int
  drain_output : Bool
  deriving DecidableEq

/-- The external events of one iteration: the `select` result and `errno`,
whether `FD_ISSET(print_fd, &input_set)` holds, the `read` result and its
`errno`, and the bulk-transfer results consumed by `bulk_write_step`. -/
structure IterInput where
  nfds : Int
  errnoVal : Int
  fdReady : Bool
  readResult : Int
  readErrno : Int
  firstXfer : XferRes
  retryXfer : XferRes
  deriving DecidableEq

/-- How one iteration of the inner writer loop ends: continue looping, break
out of the per-copy loop at end of file, break with the job status set to
`CUPS_BACKEND_FAILED`, or return from `print_device` early with the given
exit code (the source closes the device before these returns). -/
inductive IterOutcome where
  | next (st : IterState)
  | eofBreak (st : IterState)
  | failBreak (st : IterState)
  | earlyReturn (code : Int)
  deriving DecidableEq

/-- The write phase at the bottom of the loop body: nothing to do when
`g.print_bytes` is 0; otherwise run the bulk-write stanza, break with a
failed job status on a fatal status, and account any transferred bytes. -/
def writePhase (st : IterState) (inp : IterInput) : IterOutcome :=
  if st.print_bytes ≠ 0 then
    match (bulk_write_step inp.firstXfer inp.retryXfer).1 with
    | WriteOutcome.fail => IterOutcome.failBreak st
    | WriteOutcome.ok bytes =>
        if 0 < bytes then
          IterOutcome.next { st with print_bytes := st.print_bytes - bytes,
                                     total_bytes := st.total_bytes + bytes }
        else IterOutcome.next st
  else IterOutcome.next st

/-- One iteration of the inner writer loop of `print_device`, in source
order: the `select` error handling (`EINTR` before any output returns
`CUPS_BACKEND_OK`; other errors besides `EAGAIN`/`EINTR` return
`CUPS_BACKEND_FAILED`), the deferred drain-output response, the read of
print data (errors besides `EAGAIN`/`EINTR` return `CUPS_BACKEND_FAILED`,
a zero-byte read breaks out of the per-copy loop), then the write phase. -/
def loop_body (st : IterState) (inp : IterInput) : IterOutcome :=
  if inp.nfds < 0 ∧ inp.errnoVal = EINTR ∧ st.total_bytes = 0 then
    IterOutcome.earlyReturn CUPS_BACKEND_OK
  else if inp.nfds < 0 ∧ inp.errnoVal ≠ EAGAIN ∧ inp.errnoVal ≠ EINTR then
    IterOutcome.earlyReturn CUPS_BACKEND_FAILED
  else
    let st1 := if st.drain_output ∧ inp.nfds = 0 ∧ st.print_bytes = 0 then
                 { st with drain_output := false }
               else st
    if inp.fdReady then
      if inp.readResult < 0 then
        if inp.readErrno ≠ EAGAIN ∧ inp.readErrno ≠ EINTR then
          IterOutcome.earlyReturn CUPS_BACKEND_FAILED
        else writePhase { st1 with print_bytes := 0 } inp
      else if inp.readResult = 0 then
        IterOutcome.eofBreak st1
      else writePhase { st1 with print_bytes := inp.readResult } inp
    else writePhase st1 inp

/-- C8: the error handling of the writer's bulk-out transfers and of the job
input fd: a `TIMEOUT` is treated as success keeping the reported byte count
with no retry; `PIPE` and `INTERRUPTED` each retry exactly once, the retry
result deciding between proceeding and failure; any other non-zero status is
fatal with no retry, ending the copy with the job status set to failed; and
a zero-byte read of the input fd ends the per-copy loop. -/
theorem writer_error_handling :
    (∀ first retry : XferRes, first.iostatus = LIBUSB_ERROR_TIMEOUT →
      bulk_write_step first retry = (WriteOutcome.ok first.bytes, 1)) ∧
    (∀ first retry : XferRes, first.iostatus = LIBUSB_ERROR_PIPE →
      (bulk_write_step first retry).2 = 2 ∧
      (retry.iostatus = 0 → (bulk_write_step first retry).1 = WriteOutcome.ok retry.bytes) ∧
      (retry.iostatus ≠ 0 → (bulk_write_step first retry).1 = WriteOutcome.fail)) ∧
    (∀ first retry : XferRes, first.iostatus = LIBUSB_ERROR_INTERRUPTED →
      (bulk_write_step first retry).2 = 2 ∧
      (retry.iostatus = 0 → (bulk_write_step first retry).1 = WriteOutcome.ok retry.bytes) ∧
      (retry.iostatus ≠ 0 → (bulk_write_step first retry).1 = WriteOutcome.fail)) ∧
    (∀ first retry : XferRes, first.iostatus ≠ 0 →
      first.iostatus ≠ LIBUSB_ERROR_TIMEOUT → first.iostatus ≠ LIBUSB_ERROR_PIPE →
      first.iostatus ≠ LIBUSB_ERROR_INTERRUPTED →
      bulk_write_step first retry = (WriteOutcome.fail, 1)) ∧
    (∀ (st : IterState) (inp : IterInput),
      0 ≤ inp.nfds → inp.fdReady = true →
      (bulk_write_step inp.firstXfer inp.retryXfer).1 = WriteOutcome.fail →
      0 < inp.readResult →
      loop_body st inp = IterOutcome.failBreak
        { (if st.drain_output ∧ inp.nfds = 0 ∧ st.print_bytes = 0 then
            { st with drain_output := false } else st) with print_bytes := inp.readResult }) ∧
    (∀ (st : IterState) (inp : IterInput),
      0 ≤ inp.nfds → inp.fdReady = true → inp.readResult = 0 →
      loop_body st inp = IterOutcome.eofBreak
        (if st.drain_output ∧ inp.nfds = 0 ∧ st.print_bytes = 0 then
          { st with drain_output := false } else st)) := by
  refine ⟨fun first retry h => ?_, fun first retry h => ?_, fun first retry h => ?_,
    fun first retry h0 ht hp hi => ?_, fun st inp hn hfd hfail hr => ?_,
    fun st inp hn hfd hr => ?_⟩
  · rw [bulk_write_step, if_pos h]
  · rw [bulk_write_step, if_neg (by rw [h]; decide), if_pos h]
    exact ⟨rfl, fun hz => by simp [hz], fun hz => by simp [hz]⟩
  · rw [bulk_write_step, if_neg (by rw [h]; decide), if_neg (by rw [h]; decide), if_pos h]
    exact ⟨rfl, fun hz => by simp [hz], fun hz => by simp [hz]⟩
  · rw [bulk_write_step, if_neg ht, if_neg hp, if_neg hi, if_pos h0]
  · rw [loop_body, if_neg (by intro h; omega), if_neg (by intro h; omega), if_pos hfd,
      if_neg (by omega), if_neg (by omega)]
    rw [writePhase, if_pos (by simp; omega)]
    rw [hfail]
  · rw [loop_body, if_neg (by intro h; omega), if_neg (by intro h; omega), if_pos hfd,
      if_neg (by omega), if_pos hr]

/-- C8 witness: the stanza evaluated at concrete transfer results — a
timeout with 5 bytes reported, a stall whose retry succeeds with 7 bytes,
and an end-of-file read. -/
theorem writer_error_handling_witness :
    bulk_write_step { iostatus := LIBUSB_ERROR_TIMEOUT, bytes := 5 }
        { iostatus := 0, bytes := 0 } = (WriteOutcome.ok 5, 1) ∧
    (bulk_write_step { iostatus := LIBUSB_ERROR_PIPE, bytes := 0 }
        { iostatus := 0, bytes := 7 }).1 = WriteOutcome.ok 7 ∧
    loop_body { print_bytes := 0, total_bytes := 3, drain_output := false }
        { nfds := 1, errnoVal := 0, fdReady := true, readResult := 0, readErrno := 0,
          firstXfer := { iostatus := 0, bytes := 0 },
          retryXfer := { iostatus := 0, bytes := 0 } } =
      IterOutcome.eofBreak { print_bytes := 0, total_bytes := 3, drain_output := false } := by
  refine ⟨writer_error_handling.1 _ _ rfl, (writer_error_handling.2.1 _ _ rfl).2.1 rfl, ?_⟩
  have h := writer_error_handling.2.2.2.2.2
    { print_bytes := 0, total_bytes := 3, drain_output := false }
    { nfds := 1, errnoVal := 0, fdReady := true, readResult := 0, readErrno := 0,
      firstXfer := { iostatus := 0, bytes := 0 },
      retryXfer := { iostatus := 0, bytes := 0 } } (by decide) rfl rfl
  rw [h]
  decide

/-- C10: a `select` failure with `errno == EINTR` before any bytes have been
written (`total_bytes == 0`) makes `print_device` close the device and
return the success status `CUPS_BACKEND_OK`, which differs from both the
failure and the stop status. -/
theorem writer_eintr_exit (st : IterState) (inp : IterInput)
    (hn : inp.nfds < 0) (he : inp.errnoVal = EINTR) (ht : st.total_bytes = 0) :
    loop_body st inp = IterOutcome.earlyReturn CUPS_BACKEND_OK ∧
    CUPS_BACKEND_OK ≠ CUPS_BACKEND_FAILED ∧ CUPS_BACKEND_OK ≠ CUPS_BACKEND_STOP := by
  refine ⟨?_, by decide, by decide⟩
  rw [loop_body, if_pos ⟨hn, he, ht⟩]

/-- C10 witness: the early return evaluated at a concrete interrupted
`select` with nothing written yet. -/
theorem writer_eintr_exit_witness :
    loop_body { print_bytes := 0, total_bytes := 0, drain_output := false }
        { nfds := -1, errnoVal := EINTR, fdReady := false, readResult := 0, readErrno := 0,
          firstXfer := { iostatus := 0, bytes := 0 },
          retryXfer := { iostatus := 0, bytes := 0 } } =
      IterOutcome.earlyReturn CUPS_BACKEND_OK :=
  (writer_eintr_exit _ _ (by decide) rfl rfl).1

end Cups
